import Mathlib

/-!
Shallow embedding of the illness-lifecycle core of the repository
(src/illness_plugin/illness_types.py and src/illness_plugin/illness_manager.py).

Timestamps and probabilities are modelled as rationals (Python floats carry
exact decimal literals here), the two stored keys of the key-value storage
collaborator are modelled explicitly, and every random draw of the source
(random.random(), random.choice, random.choices) is passed in as an explicit
parameter so that each probabilistic branch can be examined separately.
A storage read that raises is modelled by an `Except Unit` input.
-/

/-- The eleven illness kinds of `IllnessType` (illness_types.py). -/
inductive IllnessType where
  | severeCold
  | mildCold
  | tonsillitis
  | gastroenteritis
  | skinAllergy
  | minorScratch
  | headache
  | stiffNeck
  | ankleSprain
  | nosebleed
  | mouthUlcer
deriving DecidableEq, Repr, Fintype

/-- The `.value` string of each enum member (illness_types.py lines 14-24). -/
def IllnessType.value : IllnessType → String
  | .severeCold => "重感冒"
  | .mildCold => "轻感冒"
  | .tonsillitis => "扁桃体炎/咽炎"
  | .gastroenteritis => "肠胃不适(腹泻)"
  | .skinAllergy => "皮肤过敏/皮疹"
  | .minorScratch => "轻微擦伤"
  | .headache => "轻微头痛"
  | .stiffNeck => "落枕"
  | .ankleSprain => "脚踝扭伤"
  | .nosebleed => "鼻血"
  | .mouthUlcer => "口腔溃疡"

/-- Python `IllnessType(v)`: enum lookup by value, raising (here `none`) if no
member carries the string `v`. -/
def IllnessType.ofValue (v : String) : Option IllnessType :=
  if v = "重感冒" then some .severeCold
  else if v = "轻感冒" then some .mildCold
  else if v = "扁桃体炎/咽炎" then some .tonsillitis
  else if v = "肠胃不适(腹泻)" then some .gastroenteritis
  else if v = "皮肤过敏/皮疹" then some .skinAllergy
  else if v = "轻微擦伤" then some .minorScratch
  else if v = "轻微头痛" then some .headache
  else if v = "落枕" then some .stiffNeck
  else if v = "脚踝扭伤" then some .ankleSprain
  else if v = "鼻血" then some .nosebleed
  else if v = "口腔溃疡" then some .mouthUlcer
  else none

/-- Python `dict.get(k, default)` over an association-list model of a dict. -/
def dictGetD {α : Type} (d : List (IllnessType × α)) (k : IllnessType) (dflt : α) : α :=
  (d.lookup k).getD dflt

/-- `ILLNESS_DESCRIPTIONS` (illness_types.py lines 41-53). -/
def ILLNESS_DESCRIPTIONS : List (IllnessType × String) :=
  [(.severeCold, "目前出现较为明显的上呼吸道感染症状，包括：鼻塞、咽部轻微疼痛、可能伴有低热（37.5-38℃）。建议适当休息，多补充水分。"),
   (.mildCold, "当前有轻微感冒症状，主要表现为：偶发喷嚏、鼻塞或轻微流涕，体温正常。保持充足睡眠即可。"),
   (.tonsillitis, "咽部或扁桃体区域有轻微红肿，吞咽时可能出现轻微不适感。可尝试温盐水漱口，避免辛辣刺激食物。"),
   (.gastroenteritis, "胃肠道功能出现暂时性紊乱，表现为轻微腹痛或腹泻，每日排便次数略有增加。建议清淡饮食，避免生冷油腻。"),
   (.skinAllergy, "皮肤出现局部轻微红疹或小范围荨麻疹样改变，伴有轻度瘙痒。建议避免搔抓，穿着宽松棉质衣物。"),
   (.minorScratch, "皮肤表层有轻微擦伤，范围较小，表皮略有破损，无活动性出血。保持局部清洁干燥即可。"),
   (.headache, "头部出现轻微胀痛或钝痛感，部位不固定，程度不影响日常活动。可尝试闭目休息片刻。"),
   (.stiffNeck, "颈部一侧肌肉有轻度紧张感，头部向某一方向转动时活动范围略受限，无明显疼痛。"),
   (.ankleSprain, "踝关节活动时可能有轻微不适感，局部未见明显肿胀，行走功能基本正常。建议减少长时间站立。"),
   (.nosebleed, "鼻腔黏膜小血管破裂，单侧鼻孔有少量出血，通常在5分钟内可自行停止。建议保持头部前倾姿势。"),
   (.mouthUlcer, "口腔黏膜出现一处小型溃疡面，直径约2-3毫米，接触酸性或较硬食物时可能有轻微刺痛感。")]

/-- `ILLNESS_DURATION_HOURS` (illness_types.py lines 57-69). -/
def ILLNESS_DURATION_HOURS : List (IllnessType × ℚ) :=
  [(.severeCold, 48), (.mildCold, 48), (.tonsillitis, 48), (.gastroenteritis, 24),
   (.skinAllergy, 48), (.minorScratch, 24), (.headache, 24), (.stiffNeck, 24),
   (.ankleSprain, 48), (.nosebleed, 1/2), (.mouthUlcer, 48)]

/-- `ILLNESS_TRANSITIONS` (illness_types.py lines 73-85): only severe cold has
a successor, namely mild cold. -/
def ILLNESS_TRANSITIONS : List (IllnessType × List IllnessType) :=
  [(.severeCold, [.mildCold]), (.mildCold, []), (.tonsillitis, []),
   (.gastroenteritis, []), (.skinAllergy, []), (.minorScratch, []),
   (.headache, []), (.stiffNeck, []), (.ankleSprain, []), (.nosebleed, []),
   (.mouthUlcer, [])]

/-- `ILLNESS_SEVERITY` (illness_types.py lines 89-101). -/
def ILLNESS_SEVERITY : List (IllnessType × ℚ) :=
  [(.severeCold, 8/10), (.mildCold, 3/10), (.tonsillitis, 6/10),
   (.gastroenteritis, 5/10), (.skinAllergy, 4/10), (.minorScratch, 2/10),
   (.headache, 3/10), (.stiffNeck, 3/10), (.ankleSprain, 5/10),
   (.nosebleed, 3/10), (.mouthUlcer, 4/10)]

/-- `get_illness_description` (illness_types.py line 104). -/
def get_illness_description (t : IllnessType) : String :=
  dictGetD ILLNESS_DESCRIPTIONS t "身体不适，需要休息。"

/-- `get_illness_duration` (illness_types.py line 109). -/
def get_illness_duration (t : IllnessType) : ℚ :=
  dictGetD ILLNESS_DURATION_HOURS t 24

/-- `get_illness_severity` (illness_types.py line 114). -/
def get_illness_severity (t : IllnessType) : ℚ :=
  dictGetD ILLNESS_SEVERITY t (1/2)

/-- `get_possible_transitions` (illness_types.py line 119). -/
def get_possible_transitions (t : IllnessType) : List IllnessType :=
  dictGetD ILLNESS_TRANSITIONS t []

/-- `IllnessInfo` (illness_types.py lines 27-33): the active-affliction record. -/
structure IllnessInfo where
  illness_type : IllnessType
  start_time : ℚ
  severity : ℚ
  stage : String
deriving DecidableEq, Repr

/-- One entry of the persisted `illness_history` list
(illness_manager.py lines 171-177). -/
structure HistoryRecord where
  type : String
  start_time : ℚ
  end_time : ℚ
  duration_hours : ℚ
  severity : ℚ
deriving DecidableEq, Repr

/-- The in-memory fields of `IllnessManager`
(illness_manager.py lines 29-31). -/
structure ManagerState where
  current_illness : Option IllnessInfo
  last_recovery_time : ℚ
  cool_down_end_time : ℚ
deriving DecidableEq, Repr

/-- The manager state together with the stored `illness_history` list. -/
structure FullState where
  mgr : ManagerState
  history : List HistoryRecord
deriving DecidableEq, Repr

/-- The serialized `current_illness` sub-dict of the `illness_state` blob.
Fields read through `dict.get` in `load_state` are `Option`s (absent key
allowed); `type` and `start_time` are indexed directly there, but a missing
`start_time` key (a KeyError) is still representable, as `none`. -/
structure StoredIllnessData where
  type : String
  start_time : Option ℚ
  severity : Option ℚ
  stage : Option String
deriving DecidableEq, Repr

/-- The serialized `illness_state` blob (illness_manager.py lines 64-77). -/
structure StoredState where
  current_illness : Option StoredIllnessData
  last_recovery_time : Option ℚ
  cool_down_end_time : Option ℚ
  last_update : Option ℚ
deriving DecidableEq, Repr

/-- `IllnessManager.load_state` (illness_manager.py lines 36-59).
The argument models `storage.get("illness_state", {})`: `.error` is a raising
read, `.ok none` the `{}` default, `.ok (some sd)` a stored blob.  A KeyError
on `start_time`, or a ValueError from `IllnessType(...)`, lands in the
`except` clause, which resets all three fields to the healthy default. -/
def load_state (read : Except Unit (Option StoredState)) : ManagerState :=
  match read with
  | .error _ => ⟨none, 0, 0⟩
  | .ok none => ⟨none, 0, 0⟩
  | .ok (some sd) =>
    match sd.current_illness with
    | none => ⟨none, sd.last_recovery_time.getD 0, sd.cool_down_end_time.getD 0⟩
    | some idata =>
      match IllnessType.ofValue idata.type, idata.start_time with
      | some t, some st =>
        ⟨some ⟨t, st, idata.severity.getD (1/2), idata.stage.getD "initial"⟩,
         sd.last_recovery_time.getD 0, sd.cool_down_end_time.getD 0⟩
      | _, _ => ⟨none, 0, 0⟩

/-- `IllnessManager.save_state` (illness_manager.py lines 61-83): the blob
written to `storage.set("illness_state", ...)`; `now` is the `time.time()`
stored under `last_update`. -/
def save_state (now : ℚ) (s : ManagerState) : StoredState :=
  { current_illness := s.current_illness.map (fun ill =>
      ⟨ill.illness_type.value, some ill.start_time, some ill.severity, some ill.stage⟩),
    last_recovery_time := some s.last_recovery_time,
    cool_down_end_time := some s.cool_down_end_time,
    last_update := some now }

/-- The record built in `_add_to_history` (illness_manager.py lines 171-177). -/
def mkHistoryRecord (ill : IllnessInfo) (end_time : ℚ) : HistoryRecord :=
  ⟨ill.illness_type.value, ill.start_time, end_time,
   (end_time - ill.start_time) / 3600, ill.severity⟩

/-- The last `n` elements of a list: Python `l[-n:]` for `n ≥ 1` (and the
trim `history[-20:]`). -/
def lastN {α : Type} (n : Nat) (l : List α) : List α :=
  l.drop (l.length - n)

/-- `IllnessManager._add_to_history` (illness_manager.py lines 166-188): the
new stored history list (the raising-read case, which leaves storage
untouched, is handled at the call sites that need it). -/
def add_to_history (history : List HistoryRecord) (ill : IllnessInfo)
    (end_time : ℚ) : List HistoryRecord :=
  let h := history ++ [mkHistoryRecord ill end_time]
  if h.length > 20 then lastN 20 h else h

/-- `IllnessManager.recover_from_illness` (illness_manager.py lines 150-164);
`now` stands for the `time.time()` calls of the method body. -/
def recover_from_illness (now : ℚ) (s : FullState) : FullState :=
  match s.mgr.current_illness with
  | none => s
  | some ill =>
    { mgr := { current_illness := none, last_recovery_time := now,
               cool_down_end_time := s.mgr.cool_down_end_time },
      history := add_to_history s.history ill now }

/-- `IllnessManager.force_recovery` (illness_manager.py lines 259-263). -/
def force_recovery (now : ℚ) (s : FullState) : FullState :=
  if s.mgr.current_illness.isSome then recover_from_illness now s else s

/-- `IllnessManager.transition_to_illness` (illness_manager.py lines
135-148). -/
def transition_to_illness (now : ℚ) (t : IllnessType) (s : FullState) : FullState :=
  let info : IllnessInfo := ⟨t, now, get_illness_severity t, "initial"⟩
  { s with mgr := { s.mgr with current_illness := some info } }

/-- `IllnessManager._update_illness_stage` (illness_manager.py lines 116-133).
Its two arguments are whatever `duration_hours` and `expected_duration` the
caller computed, not necessarily those of the current illness. -/
def update_illness_stage (duration_hours expected_duration : ℚ)
    (s : FullState) : FullState :=
  match s.mgr.current_illness with
  | none => s
  | some ill =>
    let progress := if expected_duration > 0 then duration_hours / expected_duration else 0
    let new_stage := if progress < 3/10 then "initial"
      else if progress < 7/10 then "progressing" else "recovering"
    if ill.stage ≠ new_stage then
      let ill2 := { ill with stage := new_stage }
      { s with mgr := { s.mgr with current_illness := some ill2 } }
    else s

/-- Python `random.choice(l)` on a non-empty list, with the draw given as an
index reduced modulo the length. -/
def pyChoice {α : Type} (l : List α) (dflt : α) (i : Nat) : α :=
  l.getD (i % l.length) dflt

/-- `IllnessManager.update_illness_state` (illness_manager.py lines 85-114),
the advance(now) operation.  `roll` is the `random.random()` of line 103
(the 70% branch is `roll < 7/10`) and `choiceIdx` feeds the
`random.choice` of line 104.  Note line 114 passes the `duration_hours`
and `expected_duration` computed for the PRE-transition illness into the
stage recompute. -/
def update_illness_state (now roll : ℚ) (choiceIdx : Nat) (s : FullState) : FullState :=
  match s.mgr.current_illness with
  | none => s
  | some ill =>
    let duration_hours := (now - ill.start_time) / 3600
    let expected_duration := get_illness_duration ill.illness_type
    let s1 :=
      if duration_hours ≥ expected_duration then
        let possible_transitions := get_possible_transitions ill.illness_type
        if possible_transitions.isEmpty then recover_from_illness now s
        else if roll < 7/10 then
          transition_to_illness now
            (pyChoice possible_transitions ill.illness_type choiceIdx) s
        else recover_from_illness now s
      else s
    update_illness_stage duration_hours expected_duration s1

/-- `IllnessManager.should_get_sick` (illness_manager.py lines 190-209);
`roll` is the `random.random()` of line 205. -/
def should_get_sick (now roll daily_probability : ℚ) (s : ManagerState) : Bool :=
  if now < s.cool_down_end_time then false
  else if s.current_illness.isSome then false
  else if roll < daily_probability then true
  else false

/-- `IllnessManager.set_cool_down` (illness_manager.py lines 265-269). -/
def set_cool_down (now cool_down_days : ℚ) (s : ManagerState) : ManagerState :=
  { s with cool_down_end_time := now + cool_down_days * 24 * 3600 }

/-- The weight table of `_get_weighted_random_illness`
(illness_manager.py lines 236-248), in source order. -/
def illness_weights : List (IllnessType × Nat) :=
  [(.mildCold, 30), (.headache, 20), (.stiffNeck, 15), (.minorScratch, 15),
   (.nosebleed, 10), (.mouthUlcer, 15), (.gastroenteritis, 10),
   (.skinAllergy, 10), (.tonsillitis, 8), (.ankleSprain, 5), (.severeCold, 3)]

/-- Cumulative-weight selection: the semantics of
`random.choices(types, weights, k=1)[0]` with the uniform draw in
`[0, total)` given as the natural number `r`; `none` models the internal
failure of the draw (so `r` past the total weight). -/
def weighted_pick {α : Type} (r : Nat) : List (α × Nat) → Option α
  | [] => none
  | (a, w) :: rest => if r < w then some a else weighted_pick (r - w) rest

/-- `IllnessManager._get_weighted_random_illness`
(illness_manager.py lines 233-257). -/
def get_weighted_random_illness (r : Nat) : Option IllnessType :=
  weighted_pick r illness_weights

/-- `IllnessManager.trigger_random_illness` (illness_manager.py lines
211-231): returns the new record and the updated manager state, or `none`
with the state untouched when the draw fails (the `except` clause). -/
def trigger_random_illness (now : ℚ) (r : Nat) (s : ManagerState) :
    Option IllnessInfo × ManagerState :=
  match get_weighted_random_illness r with
  | none => (none, s)
  | some t =>
    let info : IllnessInfo := ⟨t, now, get_illness_severity t, "initial"⟩
    (some info, { s with current_illness := some info })

/-- `IllnessManager.get_illness_history` (illness_manager.py lines 318-325):
`history[-limit:] if history else []`, with a raising read modelled by the
`Except` argument.  Python `l[-0:]` is the whole list, hence the
`limit = 0` branch. -/
def get_illness_history (read : Except Unit (List HistoryRecord))
    (limit : Nat) : List HistoryRecord :=
  match read with
  | .error _ => []
  | .ok history =>
    if history.isEmpty then []
    else if limit = 0 then history
    else lastN limit history

/-- A sequence of resolutions, each appending to the stored history the way
`recover_from_illness` does through `_add_to_history`: the history produced
by resolving the given episodes in order, starting from an empty log. -/
def resolve_all (l : List (IllnessInfo × ℚ)) : List HistoryRecord :=
  l.foldl (fun acc p => add_to_history acc p.1 p.2) []

lemma IllnessType.ofValue_value (t : IllnessType) :
    IllnessType.ofValue t.value = some t := by
  cases t <;> rfl

lemma lastN_length {α : Type} (n : Nat) (l : List α) :
    (lastN n l).length = min n l.length := by
  simp only [lastN, List.length_drop]
  omega

lemma lastN_of_le {α : Type} {n : Nat} {l : List α} (h : l.length ≤ n) :
    lastN n l = l := by
  simp [lastN, Nat.sub_eq_zero_of_le h]

lemma lastN_lastN_append {α : Type} (k : Nat) (A B : List α) :
    lastN k (lastN k A ++ B) = lastN k (A ++ B) := by
  by_cases hA : A.length ≤ k
  · rw [lastN_of_le hA]
  · show (lastN k A ++ B).drop _ = _
    rw [show lastN k A = A.drop (A.length - k) from rfl,
        ← List.drop_append_of_le_length (by omega : A.length - k ≤ A.length),
        List.drop_drop]
    show (A ++ B).drop _ = (A ++ B).drop _
    congr 1
    simp only [List.length_append, List.length_drop]
    omega

lemma add_to_history_eq (h : List HistoryRecord) (ill : IllnessInfo) (t : ℚ) :
    add_to_history h ill t = lastN 20 (h ++ [mkHistoryRecord ill t]) := by
  simp only [add_to_history]
  split
  · rfl
  · next hle =>
    rw [lastN_of_le]
    simp only [List.length_append, List.length_cons, List.length_nil] at hle ⊢
    omega

lemma foldl_add_to_history (l : List (IllnessInfo × ℚ)) :
    ∀ h : List HistoryRecord, h.length ≤ 20 →
      l.foldl (fun acc p => add_to_history acc p.1 p.2) h =
        lastN 20 (h ++ l.map (fun p => mkHistoryRecord p.1 p.2)) := by
  induction l with
  | nil => intro h hh; simp [lastN_of_le hh]
  | cons p l ih =>
    intro h hh
    rw [List.foldl_cons, ih (add_to_history h p.1 p.2)
        (by rw [add_to_history_eq]; rw [lastN_length]; omega)]
    rw [add_to_history_eq, lastN_lastN_append, List.append_assoc]
    rfl

lemma get_illness_duration_cases (t : IllnessType) :
    get_illness_duration t = 48 ∨ get_illness_duration t = 24 ∨
      get_illness_duration t = 1/2 := by
  cases t <;> first
    | exact Or.inl rfl
    | exact Or.inr (Or.inl rfl)
    | exact Or.inr (Or.inr rfl)

/-- C9: every one of the 11 illness kinds has a positive nominal duration and
a non-empty description, and each of the four catalog lookups is a total
`dict.get` that returns its fallback — the generic description, 24 hours,
severity 1/2, or the empty successor list — whenever the kind is missing
from the corresponding table. -/
theorem catalog_totality_and_fallbacks :
    (∀ t : IllnessType, 0 < get_illness_duration t ∧ get_illness_description t ≠ "") ∧
    (∀ (d : List (IllnessType × String)) (t : IllnessType), d.lookup t = none →
        dictGetD d t "身体不适，需要休息。" = "身体不适，需要休息。") ∧
    (∀ (d : List (IllnessType × ℚ)) (t : IllnessType), d.lookup t = none →
        dictGetD d t 24 = 24) ∧
    (∀ (d : List (IllnessType × ℚ)) (t : IllnessType), d.lookup t = none →
        dictGetD d t (1/2) = 1/2) ∧
    (∀ (d : List (IllnessType × List IllnessType)) (t : IllnessType), d.lookup t = none →
        dictGetD d t [] = []) := by
  refine ⟨?_, ?_, ?_, ?_, ?_⟩
  · intro t
    refine ⟨?_, by cases t <;> decide⟩
    rcases get_illness_duration_cases t with h | h | h <;> rw [h] <;> norm_num
  all_goals intro d t h; simp [dictGetD, h]

/-- Witness for C9 at a concrete kind and a concrete empty table. -/
theorem catalog_totality_and_fallbacks_witness :
    0 < get_illness_duration IllnessType.mildCold ∧
    dictGetD ([] : List (IllnessType × ℚ)) IllnessType.mildCold 24 = 24 :=
  ⟨(catalog_totality_and_fallbacks.1 IllnessType.mildCold).1,
   catalog_totality_and_fallbacks.2.2.1 [] IllnessType.mildCold rfl⟩

/-- C3: `should_get_sick` is false whenever `now` is strictly before the
cooldown deadline, whatever the probability; false whenever an illness is
active; otherwise it is a single Bernoulli draw, true exactly when the
uniform roll is below `daily_probability`; and `set_cool_down(days)` puts
the deadline at `now + days * 24 * 3600`. -/
theorem should_get_sick_spec :
    (∀ (now roll p : ℚ) (s : ManagerState), now < s.cool_down_end_time →
        should_get_sick now roll p s = false) ∧
    (∀ (now roll p : ℚ) (s : ManagerState), s.current_illness.isSome →
        should_get_sick now roll p s = false) ∧
    (∀ (now roll p : ℚ) (s : ManagerState), ¬ now < s.cool_down_end_time →
        s.current_illness = none →
        (should_get_sick now roll p s = true ↔ roll < p)) ∧
    (∀ (now days : ℚ) (s : ManagerState),
        (set_cool_down now days s).cool_down_end_time = now + days * 24 * 3600) := by
  refine ⟨?_, ?_, ?_, ?_⟩
  · intro now roll p s h; simp [should_get_sick, h]
  · intro now roll p s h; simp [should_get_sick, h]
  · intro now roll p s h1 h2
    simp only [should_get_sick, h1, if_false, h2, Option.isSome_none, Bool.false_eq_true,
      if_false]
    split <;> simp_all
  · intro now days s; rfl

/-- Witness for C3: inside a 3-day cooldown set at time 0, a probability-1
draw still reports false, and the deadline sits at 259200 seconds. -/
theorem should_get_sick_spec_witness :
    should_get_sick 259199 0 1 (set_cool_down 0 3 ⟨none, 0, 0⟩) = false ∧
    (set_cool_down 0 3 (⟨none, 0, 0⟩ : ManagerState)).cool_down_end_time = 0 + 3 * 24 * 3600 :=
  ⟨should_get_sick_spec.1 259199 0 1 (set_cool_down 0 3 ⟨none, 0, 0⟩) (by norm_num [set_cool_down]),
   should_get_sick_spec.2.2.2 0 3 ⟨none, 0, 0⟩⟩

/-- C4: when the weighted draw yields a kind, `trigger_random_illness`
replaces the current illness unconditionally — whatever `s` held — with a
fresh record (start time `now`, catalog severity, stage initial) and returns
it; when the draw fails it returns `none` and leaves the state untouched. -/
theorem trigger_random_illness_spec :
    (∀ (now : ℚ) (r : Nat) (s : ManagerState) (t : IllnessType),
        get_weighted_random_illness r = some t →
        trigger_random_illness now r s =
          (some ⟨t, now, get_illness_severity t, "initial"⟩,
           ⟨some ⟨t, now, get_illness_severity t, "initial"⟩,
            s.last_recovery_time, s.cool_down_end_time⟩)) ∧
    (∀ (now : ℚ) (r : Nat) (s : ManagerState),
        get_weighted_random_illness r = none →
        trigger_random_illness now r s = (none, s)) := by
  constructor
  · intro now r s t h
    simp only [trigger_random_illness, h]
  · intro now r s h
    simp only [trigger_random_illness, h]

/-- Witness for C4: draw 0 picks the mild cold (first, heaviest weight) and
overwrites an already-present headache; draw 141 is past the total weight
and fails, leaving that same state unchanged. -/
theorem trigger_random_illness_spec_witness :
    trigger_random_illness 5 0 ⟨some ⟨.headache, 0, 3/10, "initial"⟩, 1, 2⟩ =
      (some ⟨.mildCold, 5, get_illness_severity .mildCold, "initial"⟩,
       ⟨some ⟨.mildCold, 5, get_illness_severity .mildCold, "initial"⟩, 1, 2⟩) ∧
    trigger_random_illness 5 141 ⟨some ⟨.headache, 0, 3/10, "initial"⟩, 1, 2⟩ =
      (none, ⟨some ⟨.headache, 0, 3/10, "initial"⟩, 1, 2⟩) :=
  ⟨trigger_random_illness_spec.1 5 0 ⟨some ⟨.headache, 0, 3/10, "initial"⟩, 1, 2⟩ .mildCold rfl,
   trigger_random_illness_spec.2 5 141 ⟨some ⟨.headache, 0, 3/10, "initial"⟩, 1, 2⟩ rfl⟩

/-- C5: `_add_to_history` keeps the log at 20 records at most; the stored
list after an append is exactly the most recent 20 entries of the extended
log (oldest evicted first); and resolving 25 episodes from an empty log
leaves exactly the 20 most recent records, in order. -/
theorem illness_history_bound :
    (∀ (h : List HistoryRecord) (ill : IllnessInfo) (t : ℚ), h.length ≤ 20 →
        (add_to_history h ill t).length ≤ 20) ∧
    (∀ (h : List HistoryRecord) (ill : IllnessInfo) (t : ℚ),
        add_to_history h ill t = lastN 20 (h ++ [mkHistoryRecord ill t])) ∧
    (∀ l : List (IllnessInfo × ℚ), l.length = 25 →
        resolve_all l = (l.map (fun p => mkHistoryRecord p.1 p.2)).drop 5 ∧
          (resolve_all l).length = 20) := by
  refine ⟨?_, add_to_history_eq, ?_⟩
  · intro h ill t _
    rw [add_to_history_eq, lastN_length]
    omega
  · intro l hl
    have h25 : resolve_all l = lastN 20 (l.map (fun p => mkHistoryRecord p.1 p.2)) := by
      rw [resolve_all, foldl_add_to_history l [] (by simp)]
      rfl
    have hlen : (l.map (fun p => mkHistoryRecord p.1 p.2)).length = 25 := by
      rw [List.length_map, hl]
    constructor
    · rw [h25, lastN, hlen]
    · rw [h25, lastN_length, hlen]
      omega

/-- Witness for C5: one append to an empty log stays within the bound, and
25 identical resolutions leave a log of exactly 20 records. -/
theorem illness_history_bound_witness :
    (add_to_history [] ⟨.mildCold, 0, 3/10, "initial"⟩ 3600).length ≤ 20 ∧
    (resolve_all (List.replicate 25 (⟨.mildCold, 0, 3/10, "initial"⟩, (3600 : ℚ)))).length = 20 :=
  ⟨illness_history_bound.1 [] ⟨.mildCold, 0, 3/10, "initial"⟩ 3600 (by simp),
   (illness_history_bound.2.2 (List.replicate 25 (⟨.mildCold, 0, 3/10, "initial"⟩, (3600 : ℚ)))
     (by simp)).2⟩

/-- C6: with an illness active, `recover_from_illness(now)` appends the
history record (kind value, start time, end time `now`, duration in hours
`(now - start)/3600`, severity) to the bounded log, clears the illness and
sets the last recovery time to `now`; `force_recovery` does exactly the
same then, and is a no-op when already healthy. -/
theorem recover_and_force_recovery_spec :
    (∀ (now : ℚ) (s : FullState) (ill : IllnessInfo),
        s.mgr.current_illness = some ill →
        recover_from_illness now s =
          ⟨⟨none, now, s.mgr.cool_down_end_time⟩,
           lastN 20 (s.history ++
             [⟨ill.illness_type.value, ill.start_time, now,
               (now - ill.start_time) / 3600, ill.severity⟩])⟩ ∧
        force_recovery now s = recover_from_illness now s) ∧
    (∀ (now : ℚ) (s : FullState), s.mgr.current_illness = none →
        force_recovery now s = s ∧ recover_from_illness now s = s) := by
  constructor
  · intro now s ill h
    constructor
    · simp only [recover_from_illness, h, add_to_history_eq, mkHistoryRecord]
    · simp [force_recovery, h]
  · intro now s h
    refine ⟨by simp [force_recovery, h], by simp [recover_from_illness, h]⟩

/-- Witness for C6 at a concrete sick state and a concrete healthy state. -/
theorem recover_and_force_recovery_spec_witness :
    recover_from_illness 7200 ⟨⟨some ⟨.nosebleed, 3600, 3/10, "initial"⟩, 0, 9⟩, []⟩ =
      ⟨⟨none, 7200, 9⟩,
       lastN 20 ([] ++ [⟨IllnessType.nosebleed.value, 3600, 7200, (7200 - 3600) / 3600, 3/10⟩])⟩ ∧
    force_recovery 7200 (⟨⟨none, 0, 9⟩, []⟩ : FullState) = ⟨⟨none, 0, 9⟩, []⟩ :=
  ⟨(recover_and_force_recovery_spec.1 7200 ⟨⟨some ⟨.nosebleed, 3600, 3/10, "initial"⟩, 0, 9⟩, []⟩
      ⟨.nosebleed, 3600, 3/10, "initial"⟩ rfl).1,
   (recover_and_force_recovery_spec.2 7200 ⟨⟨none, 0, 9⟩, []⟩ rfl).1⟩

/-- C7: `load_state` rebuilds the active illness from its serialized fields,
severity defaulting to 1/2 and stage to "initial" when those keys are
absent; a raising read, an unknown type value, or a missing start time all
reset to the healthy no-cooldown state instead of propagating. -/
theorem load_state_spec :
    (∀ (sd : StoredState) (idata : StoredIllnessData) (t : IllnessType) (st : ℚ),
        sd.current_illness = some idata →
        IllnessType.ofValue idata.type = some t →
        idata.start_time = some st →
        load_state (.ok (some sd)) =
          ⟨some ⟨t, st, idata.severity.getD (1/2), idata.stage.getD "initial"⟩,
           sd.last_recovery_time.getD 0, sd.cool_down_end_time.getD 0⟩) ∧
    load_state (.error ()) = ⟨none, 0, 0⟩ ∧
    (∀ (sd : StoredState) (idata : StoredIllnessData),
        sd.current_illness = some idata →
        IllnessType.ofValue idata.type = none →
        load_state (.ok (some sd)) = ⟨none, 0, 0⟩) ∧
    (∀ (sd : StoredState) (idata : StoredIllnessData),
        sd.current_illness = some idata →
        idata.start_time = none →
        load_state (.ok (some sd)) = ⟨none, 0, 0⟩) := by
  refine ⟨?_, rfl, ?_, ?_⟩
  · intro sd idata t st h1 h2 h3
    simp [load_state, h1, h2, h3]
  · intro sd idata h1 h2
    simp [load_state, h1, h2]
  · intro sd idata h1 h2
    rcases h : IllnessType.ofValue idata.type with _ | t <;> simp [load_state, h1, h2, h]

/-- Witness for C7: a stored blob missing the optional severity and stage
keys loads with the defaults, and a blob whose type string matches no enum
member resets to the healthy default. -/
theorem load_state_spec_witness :
    load_state (.ok (some ⟨some ⟨"鼻血", some 3600, none, none⟩, some 5, some 9, some 10⟩)) =
      ⟨some ⟨.nosebleed, 3600, (none : Option ℚ).getD (1/2), (none : Option String).getD "initial"⟩, 5, 9⟩ ∧
    load_state (.ok (some ⟨some ⟨"未知疾病", some 3600, none, none⟩, some 5, some 9, some 10⟩)) =
      ⟨none, 0, 0⟩ :=
  ⟨load_state_spec.1 ⟨some ⟨"鼻血", some 3600, none, none⟩, some 5, some 9, some 10⟩
      ⟨"鼻血", some 3600, none, none⟩ .nosebleed 3600 rfl rfl rfl,
   load_state_spec.2.2.1 ⟨some ⟨"未知疾病", some 3600, none, none⟩, some 5, some 9, some 10⟩
      ⟨"未知疾病", some 3600, none, none⟩ rfl rfl⟩

/-- C8: a save followed by a fresh load from the same stored blob restores
the manager state exactly — same active record (kind, start time, severity,
stage) or absence, same last recovery time, same cooldown deadline. -/
theorem save_load_round_trip (now : ℚ) (s : ManagerState) :
    load_state (.ok (some (save_state now s))) = s := by
  cases s with
  | mk ci lrt cdt =>
    cases ci with
    | none => simp [load_state, save_state]
    | some ill =>
      simp [load_state, save_state, IllnessType.ofValue_value ill.illness_type]

/-- An active severe cold that started at time 0, with no history and no
cooldown: the transition example of the specification. -/
def sickSevereCold : FullState :=
  ⟨⟨some ⟨.severeCold, 0, 8/10, "initial"⟩, 0, 0⟩, []⟩

/-- C1: evaluating advance at 49 hours with the 70% branch taken shows the
divergence — the new record has the uniformly chosen successor kind, start
time `now` and the catalog severity of mild cold, as claimed, but its stage
ends up "recovering", not "initial": line 114 of illness_manager.py feeds
the PRE-transition `duration_hours`/`expected_duration` (progress 49/48 ≥
0.7) into the stage recompute, clobbering the "initial" stage that
`transition_to_illness` had just set. -/
theorem advance_transition_stale_stage_eval :
    update_illness_state 176400 0 0 sickSevereCold =
      ⟨⟨some ⟨.mildCold, 176400, 3/10, "recovering"⟩, 0, 0⟩, []⟩ := by
  norm_num [sickSevereCold, update_illness_state, transition_to_illness, update_illness_stage,
    pyChoice,
    show get_illness_duration IllnessType.severeCold = (48:ℚ) from rfl,
    show get_possible_transitions IllnessType.severeCold = [IllnessType.mildCold] from rfl,
    show get_illness_severity IllnessType.mildCold = (3:ℚ)/10 from rfl,
    show ("initial" : String) ≠ "recovering" from by decide]

/-- C2: advance is not idempotent — repeating the same advance call, with
the same `now` and no intervening mutation, changes the state again: the
first call leaves the freshly transitioned mild cold with the stale stage
"recovering", and the second call, with elapsed 0 on the new record,
recomputes the stage back to "initial". -/
theorem advance_not_idempotent_after_transition :
    update_illness_state 176400 0 0 (update_illness_state 176400 0 0 sickSevereCold) ≠
        update_illness_state 176400 0 0 sickSevereCold ∧
    update_illness_state 176400 0 0 (update_illness_state 176400 0 0 sickSevereCold) =
      ⟨⟨some ⟨.mildCold, 176400, 3/10, "initial"⟩, 0, 0⟩, []⟩ := by
  have h1 : update_illness_state 176400 0 0 sickSevereCold =
      ⟨⟨some ⟨.mildCold, 176400, 3/10, "recovering"⟩, 0, 0⟩, []⟩ := by
    norm_num [sickSevereCold, update_illness_state, transition_to_illness, update_illness_stage,
      pyChoice,
      show get_illness_duration IllnessType.severeCold = (48:ℚ) from rfl,
      show get_possible_transitions IllnessType.severeCold = [IllnessType.mildCold] from rfl,
      show get_illness_severity IllnessType.mildCold = (3:ℚ)/10 from rfl,
      show ("initial" : String) ≠ "recovering" from by decide]
  have h2 : update_illness_state 176400 0 0
      (⟨⟨some ⟨.mildCold, 176400, 3/10, "recovering"⟩, 0, 0⟩, []⟩ : FullState) =
      ⟨⟨some ⟨.mildCold, 176400, 3/10, "initial"⟩, 0, 0⟩, []⟩ := by
    norm_num [update_illness_state, update_illness_stage,
      show get_illness_duration IllnessType.mildCold = (48:ℚ) from rfl,
      show ("recovering" : String) ≠ "initial" from by decide]
  rw [h1, h2]
  refine ⟨?_, rfl⟩
  simp [FullState.mk.injEq, ManagerState.mk.injEq, Option.some.injEq, IllnessInfo.mk.injEq,
    show ("initial" : String) ≠ "recovering" from by decide]

/-- C10 counterexample: with one stored record and limit 0 the claim's
"history(0) returns the empty sequence" fails — Python `history[-0:]` is
the whole list, so the code returns the full stored history. -/
theorem get_illness_history_zero_limit_counterexample :
    get_illness_history (.ok [⟨"轻感冒", 0, 3600, 1, 3/10⟩]) 0 ≠ ([] : List HistoryRecord) := by
  simp [get_illness_history]

/-- C10 (amended): for every positive limit the call returns exactly the
last `min limit length` stored records, newest last; a raising read yields
the empty sequence; and limit 0 returns the entire stored list (empty only
when the store is empty). -/
theorem get_illness_history_spec :
    (∀ (h : List HistoryRecord) (limit : Nat), 0 < limit →
        get_illness_history (.ok h) limit = lastN limit h) ∧
    (∀ limit : Nat, get_illness_history (.error ()) limit = []) ∧
    (∀ h : List HistoryRecord,
        get_illness_history (.ok h) 0 = if h.isEmpty then [] else h) := by
  refine ⟨?_, fun _ => rfl, ?_⟩
  · intro h limit hl
    match h with
    | [] => simp [get_illness_history, lastN]
    | x :: xs => simp [get_illness_history, Nat.pos_iff_ne_zero.mp hl]
  · intro h
    cases h <;> simp [get_illness_history]

/-- Witness for the amended C10 at a two-record store and limit 1. -/
theorem get_illness_history_spec_witness :
    get_illness_history (.ok [⟨"轻感冒", 0, 3600, 1, 3/10⟩, ⟨"鼻血", 0, 1800, 1/2, 3/10⟩]) 1 =
      lastN 1 [⟨"轻感冒", 0, 3600, 1, 3/10⟩, ⟨"鼻血", 0, 1800, 1/2, 3/10⟩] :=
  get_illness_history_spec.1 [⟨"轻感冒", 0, 3600, 1, 3/10⟩, ⟨"鼻血", 0, 1800, 1/2, 3/10⟩] 1
    (by decide)
